import Mathlib

/-!
Verification of the search test harness `scripts/test-search.py` of the
jmap-service-email repository.

The development embeds the two cores of the script:

* the composite sort-key codec for the keyword inverted index
  (`parse_token_sk`, lines 62-89 of the script, plus the encoder the spec
  describes), modelled over `List Char` so that Python's slicing, `split`,
  `index` and `rindex` become explicit recursive functions; and
* the `run-tests` conformance harness (`cmd_run_tests`, lines 493-746):
  the per-scenario verdict functions `run_search_test` / `run_query_test` /
  `run_query_error_test`, the 19-scenario matrix with its skip guards, and
  the final pass/fail aggregation.

Python strings are `List Char` in the codec (where individual characters
matter) and `String` in the harness (where strings are only compared).
A raised exception is modelled as an explicit constructor of the result
type; external collaborators (vector index, query Lambda) are modelled as
an environment of per-scenario outcomes.
-/

namespace TestSearch

/-! ## TokenKeyCodec: string splitting primitives

Python's `s.index(c)` / `s.rindex(c)` raise `ValueError` when `c` is
absent; the `Option` result's `none` stands for that exception.
`splitFirstChar c s` returns the pieces before and after the first
occurrence of `c`, mirroring `s[:i]` / `s[i+1:]` with `i = s.index(c)`. -/

def splitFirstChar (c : Char) : List Char → Option (List Char × List Char)
  | [] => none
  | x :: rest =>
    if x = c then some ([], rest)
    else (splitFirstChar c rest).map (fun p => (x :: p.1, p.2))

/-- Split at the last occurrence of `c`, mirroring `s[:i]` / `s[i+1:]`
with `i = s.rindex(c)`; `none` is Python's `ValueError`. -/
def splitLastChar (c : Char) (xs : List Char) : Option (List Char × List Char) :=
  match splitFirstChar c xs.reverse with
  | none => none
  | some p => some (p.2.reverse, p.1.reverse)

/-- Split at the first occurrence of the substring `marker`, mirroring
Python's `s.split(marker, 1)`: `none` when the marker does not occur
(Python then returns a one-element list). -/
def splitOnceOn (marker : List Char) : List Char → Option (List Char × List Char)
  | [] => if marker = [] then some ([], []) else none
  | x :: rest =>
    if marker.isPrefixOf (x :: rest) then some ([], (x :: rest).drop marker.length)
    else (splitOnceOn marker rest).map (fun p => (x :: p.1, p.2))

/-! ## TokenKeyCodec: decode -/

/-- The four components of a posting key, as the dict returned by
`parse_token_sk`: field, token, receivedAt, emailId. -/
structure TokenRecord where
  field : List Char
  token : List Char
  receivedAt : List Char
  emailId : List Char
  deriving DecidableEq

/-- Result of `parse_token_sk`: `malformed` is the all-question-marks
sentinel dict returned when the `#RCVD#` anchor is missing from the key's
tail; `valueErr` is an uncaught `ValueError` escaping from `str.index` or
`str.rindex`; `parsed` is a successfully decoded record. -/
inductive ParseResult where
  | malformed
  | valueErr
  | parsed (r : TokenRecord)
  deriving DecidableEq

/-- The reserved anchor `#RCVD#` used as the safe split boundary. -/
def rcvdMarker : List Char := "#RCVD#".data

/-- The `TOK#` key namespace marker. -/
def tokMarker : List Char := "TOK#".data

/-- Embedding of `parse_token_sk(sk)` (script lines 62-89).

The code drops the first four characters unconditionally (`sk[4:]` - the
`TOK#` text itself is never compared), splits once on `#RCVD#`
(returning the sentinel dict when the anchor is absent), then splits the
front part at its first `#` (`str.index`) and the back part at its last
`#` (`str.rindex`); either `index` call raises `ValueError` when no `#`
is present. -/
def parse_token_sk (sk : List Char) : ParseResult :=
  let rest := sk.drop 4
  match splitOnceOn rcvdMarker rest with
  | none => ParseResult.malformed
  | some (field_token, ts_email) =>
    match splitFirstChar '#' field_token with
    | none => ParseResult.valueErr
    | some (fld, tok) =>
      match splitLastChar '#' ts_email with
      | none => ParseResult.valueErr
      | some (ts, eid) => ParseResult.parsed ⟨fld, tok, ts, eid⟩

/-- Modelled from the spec: the encoder producing the composite posting
key is not part of this script (it lives in the indexing Lambda); the
spec and claim C1 spell its output as the concatenation
`TOK#` + FIELD + `#` + token + `#RCVD#` + receivedAt + `#` + documentId. -/
def encode_token_sk (fld tok ts eid : List Char) : List Char :=
  tokMarker ++ fld ++ ['#'] ++ tok ++ rcvdMarker ++ ts ++ ['#'] ++ eid

/-! ## TokenKeyCodec: prefix builder

Embedding of the sort-key prefix construction of `cmd_list_tokens`
(script lines 320-325). `none` is an absent CLI argument; Python's
truthiness test `if field:` / `if prefix:` also treats a present empty
string as absent, hence the explicit emptiness tests. -/

def buildSkPrefix : Option String → Option String → String
  | none, _ => "TOK#"
  | some f, p =>
    if f = "" then "TOK#"
    else
      match p with
      | none => "TOK#" ++ f.toUpper ++ "#"
      | some pv =>
        if pv = "" then "TOK#" ++ f.toUpper ++ "#"
        else "TOK#" ++ f.toUpper ++ "#" ++ pv.toLower

/-! ## ConformanceHarness: external outcomes

One scenario of `cmd_run_tests` talks to one external collaborator; the
environment below records, per scenario number, what that collaborator
did. An `exn` constructor stands for a Python exception escaping the
collaborator call (network or evaluator crash). -/

/-- Outcome of the vector-search call of `run_search_test`: `exn` is an
exception out of `cmd_search`; `ok ids` is the list of `emailId` metadata
entries of the returned vectors (`None`-valued entries included, hence
`Option String`). -/
inductive SearchOutcome where
  | exn
  | ok (ids : List (Option String))

/-- Outcome of `invoke_query` inside `run_query_test`: `exn` is an
exception; `failed` is `invoke_query` returning `None` (a Lambda-level
error or a JMAP `error` response); `ok ids` is the returned id list. -/
inductive QueryOutcome where
  | exn
  | failed
  | ok (ids : List String)

/-- Outcome of `invoke_query_raw` inside `run_query_error_test`: `exn` is
an exception; `failed` is a `None` return (Lambda-level error); `resp`
carries the method response's `name` and its optional `type` argument. -/
inductive ErrOutcome where
  | exn
  | failed
  | resp (name : String) (errType : Option String)

/-- The external world of one `run-tests` run: what each numbered
scenario's collaborator call does. -/
structure Env where
  search : Nat → SearchOutcome
  query : Nat → QueryOutcome
  errq : Nat → ErrOutcome

/-- Verdict of `run_search_test` (lines 543-568): an exception means
`passed = False`; otherwise `passed = email_id in found_ids`. -/
def searchPasses (emailId : String) : SearchOutcome → Bool
  | SearchOutcome.exn => false
  | SearchOutcome.ok ids => ids.contains (some emailId)

/-- Verdict of `run_query_test` (lines 570-591): an exception or a `None`
result means `passed = False`; otherwise `passed = email_id in ids`. -/
def queryPasses (emailId : String) : QueryOutcome → Bool
  | QueryOutcome.exn => false
  | QueryOutcome.failed => false
  | QueryOutcome.ok ids => ids.contains emailId

/-- The local `passed` computed by `run_query_error_test` (lines
595-607): an exception or a `None` result means `passed = False`;
otherwise `passed = (name == "error" and resp_args.get("type", "") ==
expected)`. The variable `passed` is assigned on every path, but the
function does not reach its report line on every path: on the
`None`-result path the f-string at line 613 reads the never-assigned
local `suffix` and raises an uncaught `UnboundLocalError` — that
control flow is modelled by `errTestStep` below. -/
def errPasses (expected : String) : ErrOutcome → Bool
  | ErrOutcome.exn => false
  | ErrOutcome.failed => false
  | ErrOutcome.resp name errType => name == "error" && errType.getD "" == expected

/-! ## ConformanceHarness: scenarios -/

/-- A JMAP filter value as the harness builds it: a condition object
(a map of predicate names to string values; `cond []` is the empty
object) or an operator node with sub-filters. -/
inductive JFilter where
  | cond (entries : List (String × String))
  | op (operator : String) (conditions : List JFilter)

/-- What a scenario did: a vector search, a structured query, an
expected-error query, or a skip (with the printed reason). -/
inductive Action where
  | searchA (query : String) (vectorType : Option String)
  | queryA (filter : JFilter)
  | errA (filter : JFilter) (expected : String)
  | skipA (reason : String)

/-- Printed status of one scenario line: `[PASS]`, `[FAIL]` or `[SKIP]`. -/
inductive SStatus where
  | pass
  | fail
  | skip
  deriving DecidableEq

/-- One line of the harness report: scenario number, what was attempted,
and the printed status. -/
structure Entry where
  num : Nat
  action : Action
  status : SStatus

/-- A `run_search_test` call: prints PASS/FAIL from `searchPasses` and
appends the same boolean to `results`. -/
def searchEntry (emailId : String) (env : Env) (num : Nat) (q : String)
    (t : Option String) : Entry :=
  ⟨num, Action.searchA q t,
    if searchPasses emailId (env.search num) then SStatus.pass else SStatus.fail⟩

/-- A `run_query_test` call. -/
def queryEntry (emailId : String) (env : Env) (num : Nat) (f : JFilter) : Entry :=
  ⟨num, Action.queryA f,
    if queryPasses emailId (env.query num) then SStatus.pass else SStatus.fail⟩

/-- A `run_query_error_test` call rendered as a report line; the seed id
plays no role in its verdict, matching the code. This is a verdict-level
view (the value of `passed`): on the `ErrOutcome.failed` path the real
program computes `passed = False` but then crashes with
`UnboundLocalError` at line 613 before printing any line or appending
any boolean — `errTestStep` and `runTestsFull` below model that abort;
this entry is what the line would say were it reached. -/
def errEntry (_emailId : String) (env : Env) (num : Nat) (f : JFilter)
    (expected : String) : Entry :=
  ⟨num, Action.errA f expected, if errPasses expected (env.errq num) then SStatus.pass else SStatus.fail⟩

/-- A `[SKIP]` line; the code appends `True` to `results` for it
(`entryBool` below maps `skip` to `true`). -/
def skipEntry (num : Nat) (reason : String) : Entry :=
  ⟨num, Action.skipA reason, SStatus.skip⟩

/-- The seed document's fields as `cmd_run_tests` extracts them (lines
507-527): `from_email`, `first_mailbox` and `first_keyword` are `""`
when the document lacks the datum, exactly as in the script. The fatal
preconditions (empty subject, `searchChunks = 0`) abort before any
scenario runs and are outside this model. -/
structure Seed where
  subject : String
  from_email : String
  first_mailbox : String
  first_keyword : String

/-- First four whitespace-separated words of the subject, re-joined with
single spaces: `" ".join(subject.split()[:4])` (line 530). -/
def subjectWords (s : String) : String :=
  " ".intercalate (((s.splitOn " ").filter (fun w => w ≠ "")).take 4)

/-- The numbered scenarios of `cmd_run_tests` (lines 617-737), one entry
per scenario in program order. Guards mirror the code's truthiness
tests: a scenario whose precondition string is empty becomes a skip
entry — except scenario 17, which always runs, substituting the empty
condition object for the `hasKeyword` leaf when no keyword exists.
Numbers outside 1-19 (never produced by the script) map to a dummy
skip entry. -/
def scenarioEntry (emailId : String) (seed : Seed) (env : Env) : Nat → Entry
  | 1 => searchEntry emailId env 1 (subjectWords seed.subject) none
  | 2 => searchEntry emailId env 2 (subjectWords seed.subject) (some "subject")
  | 3 => searchEntry emailId env 3 (subjectWords seed.subject) (some "body")
  | 4 => queryEntry emailId env 4 (JFilter.cond [("text", subjectWords seed.subject)])
  | 5 => queryEntry emailId env 5 (JFilter.cond [("subject", seed.subject)])
  | 6 =>
    if seed.first_mailbox ≠ "" then
      queryEntry emailId env 6
        (JFilter.cond [("text", subjectWords seed.subject), ("inMailbox", seed.first_mailbox)])
    else skipEntry 6 "no mailbox"
  | 7 =>
    if seed.from_email ≠ "" then
      queryEntry emailId env 7
        (JFilter.cond [("text", subjectWords seed.subject), ("from", seed.from_email)])
    else skipEntry 7 "no from address"
  | 8 =>
    if seed.first_keyword ≠ "" then
      queryEntry emailId env 8
        (JFilter.cond [("text", subjectWords seed.subject), ("hasKeyword", seed.first_keyword)])
    else skipEntry 8 "no keywords"
  | 9 =>
    if seed.from_email ≠ "" then
      queryEntry emailId env 9 (JFilter.cond [("from", seed.from_email)])
    else skipEntry 9 "no from address"
  | 10 =>
    if seed.from_email ≠ "" then
      if seed.first_mailbox ≠ "" then
        queryEntry emailId env 10
          (JFilter.cond [("from", seed.from_email), ("inMailbox", seed.first_mailbox)])
      else skipEntry 10 "no mailbox"
    else skipEntry 10 "no from address"
  | 11 =>
    if seed.from_email ≠ "" then
      if seed.first_keyword ≠ "" then
        queryEntry emailId env 11
          (JFilter.cond [("from", seed.from_email), ("hasKeyword", seed.first_keyword)])
      else skipEntry 11 "no keywords"
    else skipEntry 11 "no from address"
  | 12 =>
    if seed.first_mailbox ≠ "" then
      queryEntry emailId env 12 (JFilter.cond [("inMailbox", seed.first_mailbox)])
    else skipEntry 12 "no mailbox"
  | 13 =>
    if seed.first_mailbox ≠ "" then
      if seed.first_keyword ≠ "" then
        queryEntry emailId env 13
          (JFilter.cond [("inMailbox", seed.first_mailbox), ("hasKeyword", seed.first_keyword)])
      else skipEntry 13 "no keywords"
    else skipEntry 13 "no mailbox"
  | 14 =>
    if seed.first_keyword ≠ "" then
      queryEntry emailId env 14 (JFilter.cond [("hasKeyword", seed.first_keyword)])
    else skipEntry 14 "no keywords"
  | 15 =>
    if seed.first_mailbox ≠ "" ∧ seed.first_keyword ≠ "" then
      queryEntry emailId env 15
        (JFilter.op "AND" [JFilter.cond [("inMailbox", seed.first_mailbox)],
          JFilter.cond [("hasKeyword", seed.first_keyword)]])
    else skipEntry 15 "need mailbox and keyword"
  | 16 =>
    queryEntry emailId env 16
      (JFilter.op "OR" [JFilter.cond [("text", subjectWords seed.subject)]])
  | 17 =>
    queryEntry emailId env 17
      (JFilter.op "AND"
        [(if seed.first_keyword ≠ "" then JFilter.cond [("hasKeyword", seed.first_keyword)]
          else JFilter.cond []),
         JFilter.op "OR" [JFilter.cond [("text", subjectWords seed.subject)]]])
  | 18 =>
    errEntry emailId env 18
      (JFilter.op "OR" [JFilter.cond [("from", "alice@example.com")],
        JFilter.cond [("from", "bob@example.com")]])
      "unsupportedFilter"
  | 19 =>
    errEntry emailId env 19
      (JFilter.op "NOT" [JFilter.cond [("from", "alice@example.com")]])
      "unsupportedFilter"
  | _ => skipEntry 0 ""

/-- The whole `run-tests` battery: scenarios 1-19 in program order.
These are the report lines of a run that reaches the summary; a run
can instead die mid-way when `run_query_error_test` hits its
`UnboundLocalError` slip at scenario 18 or 19 — `runTestsFull` below
is the crash-aware model of the whole process. -/
def runTests (emailId : String) (seed : Seed) (env : Env) : List Entry :=
  [scenarioEntry emailId seed env 1, scenarioEntry emailId seed env 2,
   scenarioEntry emailId seed env 3, scenarioEntry emailId seed env 4,
   scenarioEntry emailId seed env 5, scenarioEntry emailId seed env 6,
   scenarioEntry emailId seed env 7, scenarioEntry emailId seed env 8,
   scenarioEntry emailId seed env 9, scenarioEntry emailId seed env 10,
   scenarioEntry emailId seed env 11, scenarioEntry emailId seed env 12,
   scenarioEntry emailId seed env 13, scenarioEntry emailId seed env 14,
   scenarioEntry emailId seed env 15, scenarioEntry emailId seed env 16,
   scenarioEntry emailId seed env 17, scenarioEntry emailId seed env 18,
   scenarioEntry emailId seed env 19]

/-- The boolean appended to `results` for one scenario: `False` only for
a `[FAIL]` line; both `[PASS]` and `[SKIP]` append `True`. -/
def entryBool (e : Entry) : Bool :=
  match e.status with
  | SStatus.fail => false
  | _ => true

/-- The accumulated `results` list of booleans. -/
def resultsOf (entries : List Entry) : List Bool :=
  entries.map entryBool

/-- The exit verdict (lines 741-746): `passed = sum(results)`,
`failed = len(results) - passed`, and the process exits with failure
exactly when `failed > 0`. `true` means `sys.exit(1)`. -/
def exitFailure (emailId : String) (seed : Seed) (env : Env) : Bool :=
  let results := resultsOf (runTests emailId seed env)
  let passedN := results.count true
  let failedN := results.length - passedN
  decide (0 < failedN)

/-- Scenario-level error recovery, for one report entry: if the entry
ran a collaborator call and that call raised an exception, the entry is
a `[FAIL]` line (the exception never propagates out of the scenario). -/
def EntryRecov (env : Env) (e : Entry) : Prop :=
  (∀ q t, e.action = Action.searchA q t → env.search e.num = SearchOutcome.exn →
    e.status = SStatus.fail) ∧
  (∀ f, e.action = Action.queryA f → env.query e.num = QueryOutcome.exn →
    e.status = SStatus.fail) ∧
  (∀ f x, e.action = Action.errA f x → env.errq e.num = ErrOutcome.exn →
    e.status = SStatus.fail)

/-! ## Concrete data for witnesses and counterexamples -/

/-- A seed document with every optional datum present. -/
def seedFull : Seed :=
  ⟨"Quarterly report for Q1", "alice@example.com", "mb-1", "flagged"⟩

/-- A seed document with no keyword (scenario 17's precondition datum is
absent). -/
def seedNoKeyword : Seed :=
  ⟨"hello world", "alice@example.com", "mb-1", ""⟩

/-- An environment where every query fails and every expected-error
query answers with a proper `unsupportedFilter` error. -/
def envRejecting : Env :=
  ⟨fun _ => SearchOutcome.exn, fun _ => QueryOutcome.failed,
   fun _ => ErrOutcome.resp "error" (some "unsupportedFilter")⟩

/-! ## The UnboundLocalError slip in run_query_error_test

`run_query_error_test` (lines 593-615) assigns its local `suffix` on
the exception path (line 607), on the pass path (line 610) and on the
wrong-response path (line 604) — but not on the `result is None` path
(lines 597-598, reached when the Lambda invocation reports a
FunctionError and `invoke_query_raw` returns `None`). The f-string at
line 613 then raises `UnboundLocalError`, outside the `try` block and
uncaught anywhere, so the whole run dies with a traceback: no `[FAIL]`
line, no later scenario, no final count line. The other two helpers,
`run_search_test` and `run_query_test`, assign `suffix`
unconditionally and cannot crash this way. -/

/-- Control flow of one `run_query_error_test` call: `some passed` when
the call reaches its report line (and appends `passed`), `none` when it
dies with the uncaught `UnboundLocalError` of the `None`-result path. -/
def errTestStep (expected : String) : ErrOutcome → Option Bool
  | ErrOutcome.exn => some false
  | ErrOutcome.failed => none
  | ErrOutcome.resp name errType =>
    some (name == "error" && errType.getD "" == expected)

/-- How one whole `run-tests` process ends: `completed entries exitFail`
is a run that printed all 19 report lines and the count line and exited
with failure iff `exitFail`; `crashed entries` is a run that printed
only `entries`, then died of the uncaught `UnboundLocalError` — a
non-zero process exit with no count line and no scenario scored. -/
inductive RunOutcome where
  | completed (entries : List Entry) (exitFail : Bool)
  | crashed (entries : List Entry)

/-- Crash-aware model of `cmd_run_tests`: scenarios 1-17 always produce
their report lines; scenario 18 and then scenario 19 each either
produce their line (`errTestStep` is `some`) or abort the process. -/
def runTestsFull (emailId : String) (seed : Seed) (env : Env) : RunOutcome :=
  let first17 := (runTests emailId seed env).take 17
  match errTestStep "unsupportedFilter" (env.errq 18) with
  | none => RunOutcome.crashed first17
  | some _ =>
    match errTestStep "unsupportedFilter" (env.errq 19) with
    | none => RunOutcome.crashed (first17 ++ [scenarioEntry emailId seed env 18])
    | some _ => RunOutcome.completed (runTests emailId seed env) (exitFailure emailId seed env)

/-- An environment where every accept scenario succeeds (the seed id is
returned everywhere) and the query Lambda reports a FunctionError for
the expected-error queries, making `invoke_query_raw` return `None`. -/
def envFnError : Env :=
  ⟨fun _ => SearchOutcome.ok [some "em-1"], fun _ => QueryOutcome.ok ["em-1"],
   fun _ => ErrOutcome.failed⟩

/-! ## Splitting lemmas -/

/-- When the marker is a prefix of the input, `splitOnceOn` splits at
position zero. -/
theorem splitOnceOn_prefix_case {marker s : List Char}
    (h : marker.isPrefixOf s = true) :
    splitOnceOn marker s = some ([], s.drop marker.length) := by
  cases s with
  | nil =>
    have hm : marker = [] := by
      simpa using List.isPrefixOf_iff_prefix.mp h
    subst hm
    simp [splitOnceOn]
  | cons x rest => simp [splitOnceOn, h]

/-- When the marker is a prefix of `s` and no occurrence of the marker
starts inside `a`, `splitOnceOn` splits `a ++ s` exactly at the
boundary: this is Python's `(a + s).split(marker, 1)` finding its first
occurrence at the start of `s`. -/
theorem splitOnceOn_append_first {marker s : List Char}
    (hpre : marker.isPrefixOf s = true) :
    ∀ a : List Char,
      (∀ a₂, a₂ ≠ [] → a₂ <:+ a → ¬ (marker.isPrefixOf (a₂ ++ s) = true)) →
      splitOnceOn marker (a ++ s) = some (a, s.drop marker.length) := by
  intro a
  induction a with
  | nil =>
    intro _
    simpa using splitOnceOn_prefix_case hpre
  | cons x a ih =>
    intro h
    have hx : ¬ (marker.isPrefixOf (x :: (a ++ s)) = true) := by
      have := h (x :: a) (by simp) (List.suffix_refl _)
      simpa using this
    have ha : ∀ a₂, a₂ ≠ [] → a₂ <:+ a → ¬ (marker.isPrefixOf (a₂ ++ s) = true) :=
      fun a₂ h1 h2 => h a₂ h1 (h2.trans (List.suffix_cons x a))
    calc splitOnceOn marker ((x :: a) ++ s)
        = (splitOnceOn marker (a ++ s)).map (fun p => (x :: p.1, p.2)) := by
          rw [List.cons_append, splitOnceOn, if_neg hx]
      _ = some (x :: a, s.drop marker.length) := by rw [ih ha]; rfl

/-- When the marker does not occur at all, `splitOnceOn` returns `none`
(Python's split yields a single part). -/
theorem splitOnceOn_eq_none {marker xs : List Char} (hm : marker ≠ [])
    (h : ¬ marker <:+: xs) :
    splitOnceOn marker xs = none := by
  induction xs with
  | nil => simp [splitOnceOn, hm]
  | cons x rest ih =>
    have h1 : ¬ (marker.isPrefixOf (x :: rest) = true) := fun hp =>
      h (List.isPrefixOf_iff_prefix.mp hp).isInfix
    have h2 : ¬ marker <:+: rest := fun hi => h (List.infix_cons hi)
    simp [splitOnceOn, h1, ih h2]

/-- Python's `index`: the first occurrence of `c` in `a ++ [c] ++ b`
is at position `a.length` when `c` does not occur in `a`. -/
theorem splitFirstChar_append {c : Char} {a b : List Char} (h : c ∉ a) :
    splitFirstChar c (a ++ c :: b) = some (a, b) := by
  induction a with
  | nil => simp [splitFirstChar]
  | cons x a ih =>
    have hx : ¬ (x = c) := fun e => h (by simp [e])
    have hmem : c ∉ a := fun m => h (List.mem_cons_of_mem _ m)
    simp [splitFirstChar, hx, ih hmem]

/-- Python's `rindex`: the last occurrence of `c` in `a ++ [c] ++ b`
is at position `a.length` when `c` does not occur in `b`. -/
theorem splitLastChar_append {c : Char} {a b : List Char} (h : c ∉ b) :
    splitLastChar c (a ++ c :: b) = some (a, b) := by
  have hrev : (a ++ c :: b).reverse = b.reverse ++ c :: a.reverse := by simp
  unfold splitLastChar
  rw [hrev, splitFirstChar_append (by simpa using h)]
  simp

/-- An occurrence of `#RCVD#` that starts strictly before the encoded
anchor forces `#RCVD#` to occur inside `a ++ ['#']` (where `a` is the
text before the anchor): the only self-overlap of the marker is its
final `#` against its first. -/
theorem rcvd_early_match {a₂ a rest : List Char} (hne : a₂ ≠ [])
    (hsuf : a₂ <:+ a)
    (hpre : rcvdMarker.isPrefixOf (a₂ ++ (rcvdMarker ++ rest)) = true) :
    rcvdMarker <:+: (a ++ ['#']) := by
  obtain ⟨u, hu⟩ := List.isPrefixOf_iff_prefix.mp hpre
  by_cases hlen : 6 ≤ a₂.length
  · have htake : rcvdMarker = a₂.take 6 := by
      have h1 : (rcvdMarker ++ u).take 6 = rcvdMarker := by
        rw [show (6 : Nat) = rcvdMarker.length from rfl, List.take_left]
      have h2 : (a₂ ++ (rcvdMarker ++ rest)).take 6 = a₂.take 6 :=
        List.take_append_of_le_length hlen
      rw [← h1, hu, h2]
    have hinf : rcvdMarker <:+: a₂ := htake ▸ (List.take_prefix 6 a₂).isInfix
    exact (hinf.trans hsuf.isInfix).trans (List.prefix_append a ['#']).isInfix
  · have hm5 : a₂.length ≤ 5 := by omega
    have hm1 : 1 ≤ a₂.length := by
      have := List.length_pos.mpr hne
      omega
    have hle6 : a₂.length ≤ rcvdMarker.length := by
      rw [show rcvdMarker.length = 6 from rfl]; omega
    have ht : a₂ = rcvdMarker.take a₂.length := by
      have h1 : (rcvdMarker ++ u).take a₂.length = rcvdMarker.take a₂.length :=
        List.take_append_of_le_length hle6
      have h2 : (a₂ ++ (rcvdMarker ++ rest)).take a₂.length = a₂ := by
        rw [List.take_append_of_le_length (le_refl _), List.take_length]
      calc a₂ = (a₂ ++ (rcvdMarker ++ rest)).take a₂.length := h2.symm
        _ = (rcvdMarker ++ u).take a₂.length := by rw [hu]
        _ = rcvdMarker.take a₂.length := h1
    have hdropeq : rcvdMarker.drop a₂.length ++ u = rcvdMarker ++ rest := by
      have h1 : (rcvdMarker ++ u).drop a₂.length = rcvdMarker.drop a₂.length ++ u :=
        List.drop_append_of_le_length hle6
      have h2 : (a₂ ++ (rcvdMarker ++ rest)).drop a₂.length = rcvdMarker ++ rest := by
        rw [List.drop_append_of_le_length (le_refl _), List.drop_length]; rfl
      rw [← h1, hu, h2]
    have hkey : rcvdMarker.take (6 - a₂.length) = rcvdMarker.drop a₂.length := by
      have hl : (rcvdMarker.drop a₂.length).length = 6 - a₂.length := by
        rw [List.length_drop, show rcvdMarker.length = 6 from rfl]
      calc rcvdMarker.take (6 - a₂.length)
          = (rcvdMarker ++ rest).take (6 - a₂.length) :=
            (List.take_append_of_le_length (by rw [show rcvdMarker.length = 6 from rfl]; omega)).symm
        _ = (rcvdMarker.drop a₂.length ++ u).take (6 - a₂.length) := by rw [hdropeq]
        _ = rcvdMarker.drop a₂.length := by rw [← hl, List.take_left]
    obtain ⟨p, hp⟩ := hsuf
    interval_cases hcase : a₂.length
    · exact absurd hkey (by decide)
    · exact absurd hkey (by decide)
    · exact absurd hkey (by decide)
    · exact absurd hkey (by decide)
    · have ha2 : a₂ ++ ['#'] = rcvdMarker := by
        rw [ht]
        decide
      exact ⟨p, [], by rw [List.append_nil, ← hp, List.append_assoc, ha2]⟩

/-! ## Claim theorems: TokenKeyCodec -/

/-- Claim C1 (amended). Decoding inverts encoding for every field that
contains no `#`, every documentId that contains no `#`, and every token
such that the reserved marker `#RCVD#` does not occur in
FIELD + `#` + token + `#`. The claim's own hypotheses (token free of
`#RCVD#`, documentId free of `#`) are not enough: see the
counterexample `token_roundtrip_cex`. -/
theorem token_roundtrip (fld tok ts eid : List Char)
    (hf : '#' ∉ fld)
    (ht : ¬ rcvdMarker <:+: (fld ++ ['#'] ++ tok ++ ['#']))
    (hd : '#' ∉ eid) :
    parse_token_sk (encode_token_sk fld tok ts eid) =
      ParseResult.parsed ⟨fld, tok, ts, eid⟩ := by
  have hdrop4 : (encode_token_sk fld tok ts eid).drop 4 =
      (fld ++ '#' :: tok) ++ (rcvdMarker ++ (ts ++ '#' :: eid)) := by
    simp only [encode_token_sk, List.append_assoc, List.singleton_append]
    rw [show (4 : Nat) = tokMarker.length from rfl, List.drop_left]
  have hpre : rcvdMarker.isPrefixOf (rcvdMarker ++ (ts ++ '#' :: eid)) = true :=
    List.isPrefixOf_iff_prefix.mpr (List.prefix_append _ _)
  have hno : ∀ a₂, a₂ ≠ [] → a₂ <:+ (fld ++ '#' :: tok) →
      ¬ (rcvdMarker.isPrefixOf (a₂ ++ (rcvdMarker ++ (ts ++ '#' :: eid))) = true) := by
    intro a₂ hne hsuf hp
    have : rcvdMarker <:+: ((fld ++ '#' :: tok) ++ ['#']) :=
      rcvd_early_match hne hsuf hp
    exact ht (by simpa [List.append_assoc] using this)
  have hsplit : splitOnceOn rcvdMarker ((fld ++ '#' :: tok) ++ (rcvdMarker ++ (ts ++ '#' :: eid))) =
      some (fld ++ '#' :: tok, (rcvdMarker ++ (ts ++ '#' :: eid)).drop rcvdMarker.length) :=
    splitOnceOn_append_first hpre _ hno
  rw [List.drop_left] at hsplit
  simp only [parse_token_sk, hdrop4, hsplit, splitFirstChar_append hf, splitLastChar_append hd]

/-- Claim C1, witness: the spec's literal example round-trips. -/
theorem token_roundtrip_witness :
    parse_token_sk (encode_token_sk "FROM".data "alice@example.com".data
        "2024-01-01T00:00:00Z".data "em-1".data) =
      ParseResult.parsed ⟨"FROM".data, "alice@example.com".data,
        "2024-01-01T00:00:00Z".data, "em-1".data⟩ :=
  token_roundtrip _ _ _ _ (by decide) (by decide) (by decide)

/-- Claim C1, counterexample to the claim as stated. Both inputs satisfy
the claim's hypotheses (the token is free of `#RCVD#`, the documentId is
free of `#`), yet decoding the encoded key does not return the original
components: the token `RCVD#x` makes the first `#RCVD#` occurrence land
before the real anchor (decode raises `ValueError`), and a field
containing `#` is truncated at its first `#`. -/
theorem token_roundtrip_cex :
    (decide (rcvdMarker <:+: "RCVD#x".data) = false ∧
      "d".data.contains '#' = false ∧
      parse_token_sk (encode_token_sk "FROM".data "RCVD#x".data "2024".data "d".data) =
        ParseResult.valueErr) ∧
    (decide (rcvdMarker <:+: "t".data) = false ∧
      parse_token_sk (encode_token_sk "A#B".data "t".data "ts".data "d".data) =
        ParseResult.parsed ⟨"A".data, "B#t".data, "ts".data, "d".data⟩) := by
  decide

/-- Claim C2 (amended). A key whose tail after the first four characters
lacks the `#RCVD#` anchor decodes to the malformed sentinel, never to a
record; but the `TOK#` text itself is not compared (the first four
characters are dropped unconditionally), so a key lacking the `TOK#`
prefix can still decode successfully: see `malformed_key_cex`. -/
theorem malformed_key_decode (sk : List Char)
    (h : ¬ rcvdMarker <:+: sk.drop 4) :
    parse_token_sk sk = ParseResult.malformed := by
  simp only [parse_token_sk]
  rw [splitOnceOn_eq_none (by decide) h]

/-- Claim C2, witness: a key with no anchor at all decodes to the
sentinel. -/
theorem malformed_key_decode_witness :
    parse_token_sk "garbage-key".data = ParseResult.malformed :=
  malformed_key_decode _ (by decide)

/-- Claim C2, counterexample to the claim as stated: this key lacks the
`TOK#` prefix, yet decode returns a successfully decoded record rather
than the malformed error. -/
theorem malformed_key_cex :
    tokMarker.isPrefixOf "XXXXF#t#RCVD#ts#d".data = false ∧
    parse_token_sk "XXXXF#t#RCVD#ts#d".data =
      ParseResult.parsed ⟨"F".data, "t".data, "ts".data, "d".data⟩ := by
  decide

/-- Claim C9. `parse_token_sk` is not total on keys containing the
anchor: a key whose portion between `TOK#` and `#RCVD#` has no `#`
makes `str.index` raise, and a key with no `#` after the anchor makes
`str.rindex` raise; both escape as an uncaught `ValueError`. -/
theorem decode_not_total :
    parse_token_sk "TOK#FIELD#RCVD#a#b".data = ParseResult.valueErr ∧
    parse_token_sk "TOK#F#t#RCVD#nohash".data = ParseResult.valueErr := by
  decide

/-- Claim C8. The scan-prefix builder yields exactly the three shapes:
bare `TOK#` with no field (a token prefix given without a field never
contributes), `TOK#` + uppercased field + `#` with only a field, and
additionally the lowercased token prefix when both are given. -/
theorem sk_prefix_cases (f p : String) :
    buildSkPrefix none none = "TOK#" ∧
    buildSkPrefix none (some p) = "TOK#" ∧
    (f ≠ "" → buildSkPrefix (some f) none = "TOK#" ++ f.toUpper ++ "#") ∧
    (f ≠ "" → p ≠ "" →
      buildSkPrefix (some f) (some p) = "TOK#" ++ f.toUpper ++ "#" ++ p.toLower) := by
  refine ⟨rfl, rfl, ?_, ?_⟩
  · intro hf
    simp [buildSkPrefix, hf]
  · intro hf hp
    simp [buildSkPrefix, hf, hp]

/-! ## Claim theorems: ConformanceHarness -/

/-- Claim C6. The verdict of every accept scenario is membership of the
seed document's id in the returned identifier list — nothing about the
rest of the list: `run_search_test` passes exactly when some returned
vector's `emailId` metadata equals the seed id, and `run_query_test`
passes exactly when the id list of a successful response contains the
seed id. Exact equality of the result set is never required (any
superset containing the seed id passes). -/
theorem accept_verdict_membership (emailId : String) :
    (∀ o : SearchOutcome, searchPasses emailId o = true ↔
      ∃ ids, o = SearchOutcome.ok ids ∧ some emailId ∈ ids) ∧
    (∀ o : QueryOutcome, queryPasses emailId o = true ↔
      ∃ ids, o = QueryOutcome.ok ids ∧ emailId ∈ ids) := by
  constructor
  · intro o
    cases o with
    | exn => simp [searchPasses]
    | ok ids => simp [searchPasses, List.contains, List.elem_iff]
  · intro o
    cases o with
    | exn => simp [queryPasses]
    | failed => simp [queryPasses]
    | ok ids => simp [queryPasses, List.contains, List.elem_iff]

/-- Claim C3. A reject scenario (18, multi-child OR; 19, NOT) passes
exactly when the evaluator's response is a method response named
`error` whose declared `type` is string-equal to `unsupportedFilter`;
both reject scenarios expect that one taxonomy code. -/
theorem reject_verdict_iff (emailId : String) (seed : Seed) (env : Env)
    (n : Nat) (hn : n = 18 ∨ n = 19) :
    ((scenarioEntry emailId seed env n).status = SStatus.pass ↔
      ∃ ty, env.errq n = ErrOutcome.resp "error" ty ∧ ty.getD "" = "unsupportedFilter") ∧
    (∃ f, (scenarioEntry emailId seed env n).action = Action.errA f "unsupportedFilter") := by
  have key : ∀ m : Nat, ∀ f : JFilter,
      ((errEntry emailId env m f "unsupportedFilter").status = SStatus.pass ↔
        ∃ ty, env.errq m = ErrOutcome.resp "error" ty ∧ ty.getD "" = "unsupportedFilter") := by
    intro m f
    cases ho : env.errq m with
    | exn => simp [errEntry, errPasses, ho]
    | failed => simp [errEntry, errPasses, ho]
    | resp name ty =>
      simp only [errEntry, errPasses, ho]
      constructor
      · intro h
        by_cases hb : (name == "error" && ty.getD "" == "unsupportedFilter") = true
        · have h1 : name = "error" := by
            simpa using (Bool.and_eq_true_iff.mp hb).1
          have h2 : ty.getD "" = "unsupportedFilter" := by
            simpa using (Bool.and_eq_true_iff.mp hb).2
          subst h1
          exact ⟨ty, rfl, h2⟩
        · rw [if_neg hb] at h
          exact absurd h (by simp)
      · rintro ⟨ty', hresp, hty⟩
        have h1 : name = "error" := by
          injection hresp
        have h2 : ty = ty' := by
          injection hresp
        subst h1
        rw [h2, hty]
        simp
  rcases hn with rfl | rfl
  · exact ⟨key 18 _, ⟨_, rfl⟩⟩
  · exact ⟨key 19 _, ⟨_, rfl⟩⟩

/-- Claim C3, witness: with an evaluator that answers the reject
scenarios with a proper `unsupportedFilter` error, scenario 18 passes. -/
theorem reject_verdict_witness :
    (scenarioEntry "em-1" seedFull envRejecting 18).status = SStatus.pass :=
  ((reject_verdict_iff "em-1" seedFull envRejecting 18 (Or.inl rfl)).1).mpr
    ⟨some "unsupportedFilter", rfl, rfl⟩

/-! ## Scenario-level error recovery (claim C4) -/

theorem entryRecov_search (emailId : String) (env : Env) (n : Nat)
    (q : String) (t : Option String) :
    EntryRecov env (searchEntry emailId env n q t) := by
  refine ⟨?_, ?_, ?_⟩
  · intro q' t' _ hexn
    simp only [searchEntry] at hexn ⊢
    rw [hexn]
    rfl
  · intro f hf _
    exact absurd hf (by simp [searchEntry])
  · intro f x hf _
    exact absurd hf (by simp [searchEntry])

theorem entryRecov_query (emailId : String) (env : Env) (n : Nat) (f : JFilter) :
    EntryRecov env (queryEntry emailId env n f) := by
  refine ⟨?_, ?_, ?_⟩
  · intro q t hf _
    exact absurd hf (by simp [queryEntry])
  · intro f' _ hexn
    simp only [queryEntry] at hexn ⊢
    rw [hexn]
    rfl
  · intro f' x hf _
    exact absurd hf (by simp [queryEntry])

theorem entryRecov_err (emailId : String) (env : Env) (n : Nat) (f : JFilter)
    (x : String) :
    EntryRecov env (errEntry emailId env n f x) := by
  refine ⟨?_, ?_, ?_⟩
  · intro q t hf _
    exact absurd hf (by simp [errEntry])
  · intro f' hf _
    exact absurd hf (by simp [errEntry])
  · intro f' x' _ hexn
    simp only [errEntry] at hexn ⊢
    rw [hexn]
    rfl

theorem entryRecov_skip (env : Env) (n : Nat) (r : String) :
    EntryRecov env (skipEntry n r) := by
  refine ⟨?_, ?_, ?_⟩
  · intro q t hf _
    exact absurd hf (by simp [skipEntry])
  · intro f hf _
    exact absurd hf (by simp [skipEntry])
  · intro f x hf _
    exact absurd hf (by simp [skipEntry])

theorem entryRecov_ite (env : Env) {c : Prop} [Decidable c] {a b : Entry}
    (ha : EntryRecov env a) (hb : EntryRecov env b) :
    EntryRecov env (if c then a else b) := by
  by_cases h : c
  · rw [if_pos h]; exact ha
  · rw [if_neg h]; exact hb

/-- Every scenario entry recovers collaborator exceptions at scenario
level: the entry's own status becomes `fail`. This covers exactly the
`except`-clause paths (the `exn` outcomes), which the code does catch;
it says nothing about the `ErrOutcome.failed` path of scenarios 18-19,
where the program crashes before producing any entry (`runTestsFull`). -/
theorem scenarioEntry_recov (emailId : String) (seed : Seed) (env : Env) :
    ∀ n : Nat, EntryRecov env (scenarioEntry emailId seed env n)
  | 0 => entryRecov_skip env 0 ""
  | 1 => entryRecov_search emailId env 1 _ _
  | 2 => entryRecov_search emailId env 2 _ _
  | 3 => entryRecov_search emailId env 3 _ _
  | 4 => entryRecov_query emailId env 4 _
  | 5 => entryRecov_query emailId env 5 _
  | 6 => entryRecov_ite env (entryRecov_query emailId env 6 _) (entryRecov_skip env 6 _)
  | 7 => entryRecov_ite env (entryRecov_query emailId env 7 _) (entryRecov_skip env 7 _)
  | 8 => entryRecov_ite env (entryRecov_query emailId env 8 _) (entryRecov_skip env 8 _)
  | 9 => entryRecov_ite env (entryRecov_query emailId env 9 _) (entryRecov_skip env 9 _)
  | 10 => entryRecov_ite env
      (entryRecov_ite env (entryRecov_query emailId env 10 _) (entryRecov_skip env 10 _))
      (entryRecov_skip env 10 _)
  | 11 => entryRecov_ite env
      (entryRecov_ite env (entryRecov_query emailId env 11 _) (entryRecov_skip env 11 _))
      (entryRecov_skip env 11 _)
  | 12 => entryRecov_ite env (entryRecov_query emailId env 12 _) (entryRecov_skip env 12 _)
  | 13 => entryRecov_ite env
      (entryRecov_ite env (entryRecov_query emailId env 13 _) (entryRecov_skip env 13 _))
      (entryRecov_skip env 13 _)
  | 14 => entryRecov_ite env (entryRecov_query emailId env 14 _) (entryRecov_skip env 14 _)
  | 15 => entryRecov_ite env (entryRecov_query emailId env 15 _) (entryRecov_skip env 15 _)
  | 16 => entryRecov_query emailId env 16 _
  | 17 => entryRecov_query emailId env 17 _
  | 18 => entryRecov_err emailId env 18 _ _
  | 19 => entryRecov_err emailId env 19 _ _
  | (_ + 20) => entryRecov_skip env 0 ""

/-- For a run that reaches the summary (the `completed` branch of
`runTestsFull`), the exit verdict is failure exactly when some scenario
line is `[FAIL]`: `[SKIP]` and `[PASS]` lines contribute `True` to
`results`. The crash path of `runTestsFull` is the exception — there
the process dies non-zero with no scenario scored failed (claim C7's
bug, `crash_exit_without_failed_scenario`). -/
theorem completed_exit_iff_failed (emailId : String) (seed : Seed) (env : Env) :
    exitFailure emailId seed env = true ↔
      ∃ e ∈ runTests emailId seed env, e.status = SStatus.fail := by
  have key : ∀ l : List Entry,
      (0 < (resultsOf l).length - (resultsOf l).count true ↔
        ∃ e ∈ l, e.status = SStatus.fail) := by
    intro l
    induction l with
    | nil => simp [resultsOf]
    | cons e l ih =>
      have hlen : (resultsOf (e :: l)).length = (resultsOf l).length + 1 := by
        simp [resultsOf]
      have hble : (resultsOf l).count true ≤ (resultsOf l).length :=
        List.count_le_length true (resultsOf l)
      rcases hs : e.status with _ | _ | _
      · have hc : (resultsOf (e :: l)).count true = (resultsOf l).count true + 1 := by
          have hb : entryBool e = true := by simp [entryBool, hs]
          simp [resultsOf, List.count_cons, hb]
        rw [hlen, hc, Nat.add_sub_add_right, ih]
        constructor
        · rintro ⟨x, hx, hxs⟩
          exact ⟨x, List.mem_cons_of_mem _ hx, hxs⟩
        · rintro ⟨x, hx, hxs⟩
          rcases List.mem_cons.mp hx with rfl | hx'
          · rw [hs] at hxs
            exact absurd hxs (by simp)
          · exact ⟨x, hx', hxs⟩
      · have hc : (resultsOf (e :: l)).count true = (resultsOf l).count true := by
          have hb : entryBool e = false := by simp [entryBool, hs]
          simp [resultsOf, List.count_cons, hb]
        rw [hlen, hc]
        constructor
        · intro _
          exact ⟨e, List.mem_cons_self e l, hs⟩
        · intro _
          omega
      · have hc : (resultsOf (e :: l)).count true = (resultsOf l).count true + 1 := by
          have hb : entryBool e = true := by simp [entryBool, hs]
          simp [resultsOf, List.count_cons, hb]
        rw [hlen, hc, Nat.add_sub_add_right, ih]
        constructor
        · rintro ⟨x, hx, hxs⟩
          exact ⟨x, List.mem_cons_of_mem _ hx, hxs⟩
        · rintro ⟨x, hx, hxs⟩
          rcases List.mem_cons.mp hx with rfl | hx'
          · rw [hs] at hxs
            exact absurd hxs (by simp)
          · exact ⟨x, hx', hxs⟩
  rw [exitFailure, decide_eq_true_iff]
  exact key (runTests emailId seed env)

/-- Claim C5 (amended). Every scenario guarded by a precondition check
(6-15) whose required datum is absent on the seed document is reported
`Skipped`, and every skipped line contributes a passing `True` to
`results` — but this does not cover every scenario that uses optional
data: scenario 17 also uses the keyword and is executed rather than
skipped when the keyword is absent (see `skip_guards_cex` and
claim C10). -/
theorem skip_guards (emailId : String) (seed : Seed) (env : Env) :
    (seed.first_mailbox = "" →
      (scenarioEntry emailId seed env 6).status = SStatus.skip ∧
      (scenarioEntry emailId seed env 10).status = SStatus.skip ∧
      (scenarioEntry emailId seed env 12).status = SStatus.skip ∧
      (scenarioEntry emailId seed env 13).status = SStatus.skip ∧
      (scenarioEntry emailId seed env 15).status = SStatus.skip) ∧
    (seed.from_email = "" →
      (scenarioEntry emailId seed env 7).status = SStatus.skip ∧
      (scenarioEntry emailId seed env 9).status = SStatus.skip ∧
      (scenarioEntry emailId seed env 10).status = SStatus.skip ∧
      (scenarioEntry emailId seed env 11).status = SStatus.skip) ∧
    (seed.first_keyword = "" →
      (scenarioEntry emailId seed env 8).status = SStatus.skip ∧
      (scenarioEntry emailId seed env 11).status = SStatus.skip ∧
      (scenarioEntry emailId seed env 13).status = SStatus.skip ∧
      (scenarioEntry emailId seed env 14).status = SStatus.skip ∧
      (scenarioEntry emailId seed env 15).status = SStatus.skip) ∧
    (∀ e ∈ runTests emailId seed env, e.status = SStatus.skip → entryBool e = true) := by
  refine ⟨?_, ?_, ?_, ?_⟩
  · intro h
    refine ⟨?_, ?_, ?_, ?_, ?_⟩ <;>
      simp [scenarioEntry, h, skipEntry, queryEntry, apply_ite Entry.status]
  · intro h
    refine ⟨?_, ?_, ?_, ?_⟩ <;>
      simp [scenarioEntry, h, skipEntry, queryEntry, apply_ite Entry.status]
  · intro h
    refine ⟨?_, ?_, ?_, ?_, ?_⟩ <;>
      simp [scenarioEntry, h, skipEntry, queryEntry, apply_ite Entry.status]
  · intro e _ hskip
    simp [entryBool, hskip]

/-- Claim C5, counterexample to the claim as stated: with a seed
document that has no keyword, scenario 17 — whose precondition datum
(the keyword) is absent — is not skipped; under an evaluator that
answers its query with an error it is reported `[FAIL]` and contributes
a failing boolean. -/
theorem skip_guards_cex :
    seedNoKeyword.first_keyword = "" ∧
    (scenarioEntry "em-1" seedNoKeyword envRejecting 17).status = SStatus.fail ∧
    entryBool (scenarioEntry "em-1" seedNoKeyword envRejecting 17) = false := by
  refine ⟨rfl, ?_, ?_⟩ <;> rfl

/-- Claim C10. When the seed document has no keyword, scenario 17 (the
nested AND with a single-child OR) is executed, not skipped: its filter
substitutes the empty condition object for the `hasKeyword` leaf, and
its verdict is `[PASS]` or `[FAIL]` according to the evaluator's
treatment of that query — never the skip status. -/
theorem scenario17_empty_condition (emailId : String) (seed : Seed) (env : Env)
    (h : seed.first_keyword = "") :
    (scenarioEntry emailId seed env 17).action =
      Action.queryA (JFilter.op "AND"
        [JFilter.cond [],
         JFilter.op "OR" [JFilter.cond [("text", subjectWords seed.subject)]]]) ∧
    (scenarioEntry emailId seed env 17).status =
      (if queryPasses emailId (env.query 17) then SStatus.pass else SStatus.fail) := by
  constructor <;> simp [scenarioEntry, queryEntry, h]

/-- Claim C10, witness: at a concrete keyword-less seed the entry's
verdict is the evaluator-determined one. -/
theorem scenario17_empty_condition_witness :
    (scenarioEntry "em-1" seedNoKeyword envRejecting 17).status =
      (if queryPasses "em-1" (envRejecting.query 17) then SStatus.pass else SStatus.fail) :=
  (scenario17_empty_condition "em-1" seedNoKeyword envRejecting rfl).2

/-! ## Claims C4 and C7: the crash path -/

/-- On every path where `run_query_error_test` does reach its report
line, the printed verdict is the `passed` value that `errPasses`
embeds: the verdict-level entries and the crash-aware run agree
wherever the program survives. -/
theorem errTestStep_agrees (expected : String) (o : ErrOutcome) (b : Bool)
    (h : errTestStep expected o = some b) : errPasses expected o = b := by
  cases o with
  | exn =>
    simp [errTestStep] at h
    simp [errPasses, h]
  | failed => simp [errTestStep] at h
  | resp name ty =>
    simp [errTestStep] at h
    simp [errPasses, h]

/-- Claim C4, the bug: a Lambda FunctionError at scenario 18 (an
evaluator-side error: `invoke_query_raw` returns `None`) is not
recovered at scenario level — the run aborts through the uncaught
`UnboundLocalError` of line 613 after printing only the first 17
scenario lines, scenario 19 never runs, and no boolean is recorded
for either reject scenario. -/
theorem run_aborts_on_function_error (emailId : String) (seed : Seed) (env : Env)
    (h : env.errq 18 = ErrOutcome.failed) :
    runTestsFull emailId seed env =
      RunOutcome.crashed ((runTests emailId seed env).take 17) := by
  simp only [runTestsFull, h]
  rfl

/-- Claim C4, witness of the bug at a concrete run. -/
theorem run_aborts_on_function_error_witness :
    runTestsFull "em-1" seedFull envFnError =
      RunOutcome.crashed ((runTests "em-1" seedFull envFnError).take 17) :=
  run_aborts_on_function_error "em-1" seedFull envFnError rfl

/-- Claim C7, the bug: in the same FunctionError run every scenario
that was scored passed (all 17 lines are `[PASS]`), yet the process
ends in failure — it dies of the uncaught `UnboundLocalError` with no
`[FAIL]` line, no line at all for scenarios 18 and 19, and no final
count line, falsifying "failure status if and only if at least one
non-skipped scenario failed". -/
theorem crash_exit_without_failed_scenario :
    runTestsFull "em-1" seedFull envFnError =
      RunOutcome.crashed ((runTests "em-1" seedFull envFnError).take 17) ∧
    ((runTests "em-1" seedFull envFnError).take 17).map Entry.status =
      List.replicate 17 SStatus.pass := by
  constructor
  · rfl
  · decide
